import Mathlib

/-!
Verification development for the Tuple dashboard client
(`apps/web/src/app/(dashboard)` pages, `src/lib/store.ts`, `src/lib/api.ts`,
and the shared type declarations).

The TypeScript source is shallowly embedded: React event handlers become pure
state-transition functions that also record the network request they issue (if
any) and the toast notifications they raise; dynamically typed JavaScript
values are embedded as the inductive `Js` type; JavaScript truthiness, `||`
chains, `parseInt`, `JSON.stringify` and `String(...)` coercion are modelled
explicitly.  JavaScript numbers appearing in the modelled code paths are
integers, so `Js.num` carries an `Int`.
-/

namespace Tuple

/-- Embedding of a dynamically typed JavaScript value (`any` in the source).
`Js.null` covers both `null` and JSON `null`; an *absent* value
(`undefined`) is represented by `Option Js` being `none` at use sites. -/
inductive Js where
  | null : Js
  | bool (b : Bool) : Js
  | num (n : Int) : Js
  | str (s : String) : Js
  | arr (elems : List Js) : Js
  | obj (fields : List (String × Js)) : Js

/-- JavaScript truthiness on a present value: `null`, `false`, `0` and `""`
are falsy; objects and arrays are always truthy. -/
def Js.truthy : Js → Bool
  | .null => false
  | .bool b => b
  | .num n => n != 0
  | .str s => s != ""
  | .arr _ => true
  | .obj _ => true

/-- Truthiness of a possibly-absent value (`undefined` is falsy). -/
def jsTruthy : Option Js → Bool
  | none => false
  | some j => j.truthy

/-- JavaScript `a || b` on possibly-absent values: yields `b` whenever `a`
is falsy (including `undefined`), else `a`. -/
def jsOr (a b : Option Js) : Option Js :=
  if jsTruthy a then a else b

/-- JavaScript `a || b` where the right operand is a known-present default. -/
def jsOrD (a : Option Js) (b : Js) : Js :=
  if jsTruthy a then a.getD b else b

/-- Property read `o.k` on a JavaScript value: a lookup on objects,
`undefined` on every other shape (the modelled code never reads properties
that exist on primitive wrappers). -/
def Js.get : Js → String → Option Js
  | .obj fields, k => (fields.find? (fun kv => kv.1 = k)).map (·.2)
  | _, _ => none

/-- Optional-chaining read `o?.k`: `undefined` when the receiver is absent
or `null`, otherwise a property read. -/
def jsGetChain (o : Option Js) (k : String) : Option Js :=
  match o with
  | none => none
  | some .null => none
  | some j => j.get k

/-- The source only ever applies `===` between a dynamic value and a string
(e.g. `ds.id === item.data_source_id`): strict equality holds exactly when
the dynamic value is that string. -/
def jsStrictEqStr (v : Option Js) (s : String) : Bool :=
  match v with
  | some (.str t) => t == s
  | _ => false

/-- JSON escaping of the quote and backslash characters of a string. -/
def jsonEscape : List Char → String
  | [] => ""
  | c :: cs =>
      (if c = '"' then "\\\"" else if c = '\\' then "\\\\" else String.singleton c)
        ++ jsonEscape cs

mutual

/-- Embedding of `JSON.stringify` on a present value (string escaping is
modelled for the quote and backslash characters, the only ones appearing in
the modelled data). -/
def Js.stringify : Js → String
  | .null => "null"
  | .bool b => if b then "true" else "false"
  | .num n => toString n
  | .str s => "\"" ++ jsonEscape s.data ++ "\""
  | .arr elems => "[" ++ stringifyElems elems ++ "]"
  | .obj fields => "\x7b" ++ stringifyFields fields ++ "\x7d"

/-- Comma-separated serialisation of array elements. -/
def stringifyElems : List Js → String
  | [] => ""
  | [j] => j.stringify
  | j :: rest => j.stringify ++ "," ++ stringifyElems rest

/-- Comma-separated serialisation of object fields. -/
def stringifyFields : List (String × Js) → String
  | [] => ""
  | [kv] => "\"" ++ jsonEscape kv.1.data ++ "\":" ++ kv.2.stringify
  | kv :: rest =>
      "\"" ++ jsonEscape kv.1.data ++ "\":" ++ kv.2.stringify ++ "," ++ stringifyFields rest

end

mutual

/-- Embedding of JavaScript `String(v)` coercion.  For arrays the element
displays are joined with commas (nested `null` rendering inside arrays is
approximated by `"null"`); objects display as `"[object Object]"`. -/
def Js.display : Js → String
  | .null => "null"
  | .bool b => if b then "true" else "false"
  | .num n => toString n
  | .str s => s
  | .arr elems => displayElems elems
  | .obj _ => "[object Object]"

/-- Comma-joined display of array elements. -/
def displayElems : List Js → String
  | [] => ""
  | [j] => j.display
  | j :: rest => j.display ++ "," ++ displayElems rest

end

/-- Embedding of `String.prototype.trim()`: strips whitespace from both
ends. -/
def jsTrim (s : String) : String :=
  String.mk ((s.data.dropWhile Char.isWhitespace).reverse.dropWhile
    Char.isWhitespace).reverse

/-- Embedding of JavaScript `parseInt` on a string: skips leading
whitespace, accepts an optional sign and leading decimal digits; `none`
models a `NaN` result. -/
def jsParseInt (s : String) : Option Int :=
  let chars := s.data.dropWhile (fun c => c = ' ' ∨ c = '\t' ∨ c = '\n' ∨ c = '\r')
  let (neg, digits) :=
    match chars with
    | '-' :: rest => (true, rest)
    | '+' :: rest => (false, rest)
    | rest => (false, rest)
  let leading := digits.takeWhile Char.isDigit
  if leading.isEmpty then none
  else
    let mag : Nat := leading.foldl (fun acc c => acc * 10 + (c.toNat - '0'.toNat)) 0
    some (if neg then -(mag : Int) else (mag : Int))

/-- A toast notification raised by a handler (`toast.success` / `toast.error`
from the `sonner` library). -/
inductive Notification where
  | success (msg : String)
  | error (msg : String)
  deriving Repr, DecidableEq

/-! ### Shared type declarations (`types/index.ts`)

Embedding of the exported interfaces of the shared types module.
`Date` values are embedded as epoch milliseconds (`Int`); TypeScript
optional fields (`x?:`) become `Option`. -/

/-- Embedding of `export type DataSourceType = "postgresql" | ... | "redshift"`. -/
inductive DataSourceType where
  | postgresql | mysql | mongodb | sqlite | csv | excel
  | rest_api | graphql | snowflake | bigquery | redshift
  deriving Repr, DecidableEq

/-- Embedding of `interface ConnectionConfig` — every field optional. -/
structure ConnectionConfig where
  host : Option String := none
  port : Option Int := none
  database : Option String := none
  username : Option String := none
  password : Option String := none
  ssl : Option Bool := none
  url : Option String := none
  apiKey : Option String := none
  headers : Option (List (String × String)) := none
  filePath : Option String := none
  deriving Repr, DecidableEq

/-- Embedding of `interface ColumnStatistics`; the `any`-typed min/max and top values are
embedded as `Js`. -/
structure ColumnStatistics where
  distinctCount : Option Nat := none
  nullCount : Option Nat := none
  minValue : Option Js := none
  maxValue : Option Js := none
  avgValue : Option Int := none
  topValues : Option (List (Js × Nat)) := none

/-- Embedding of `interface ColumnSchema`. -/
structure ColumnSchema where
  name : String
  type : String
  nullable : Bool
  primaryKey : Bool
  foreignKey : Option (String × String) := none
  description : Option String := none
  statistics : Option ColumnStatistics := none

/-- Embedding of `interface TableSchema`. -/
structure TableSchema where
  name : String
  columns : List ColumnSchema
  rowCount : Option Nat := none
  sampleData : Option (List (List (String × Js))) := none

/-- Embedding of `interface Relationship`. -/
structure Relationship where
  from_ : String × String
  to_ : String × String
  relType : String

/-- Embedding of `interface DatabaseSchema`. -/
structure DatabaseSchema where
  tables : List TableSchema
  relationships : Option (List Relationship) := none

/-- Embedding of `status: "connected" | "disconnected" | "error"`. -/
inductive DataSourceStatus where
  | connected | disconnected | error
  deriving Repr, DecidableEq

/-- Embedding of `interface DataSource` from the shared types module. -/
structure DataSource where
  id : String
  name : String
  type : DataSourceType
  config : ConnectionConfig
  status : DataSourceStatus
  lastConnected : Option Int := none
  schema : Option DatabaseSchema := none
  createdAt : Int
  updatedAt : Int

/-- Embedding of `interface QueryResult` from the shared types module.  The source
declares `rows: Record<string, any>[]` — each row is a *keyed record*,
embedded as an association list from field name to value. -/
structure QueryResult where
  columns : List String
  rows : List (List (String × Js))
  rowCount : Nat
  executionTime : Int
  error : Option String := none

/-! ### Client-side store (`lib/store.ts`)

The zustand `useDataSourceStore` slice; each action becomes a function
`State → State`. -/

/-- The `DataSourceState` slice of the store. -/
structure DataSourceState where
  dataSources : List DataSource
  selectedDataSource : Option DataSource
  isConnecting : Bool
  error : Option String

/-- Action `addDataSource`: appends the new source to the list. -/
def addDataSource (dataSource : DataSource) (state : DataSourceState) : DataSourceState :=
  { state with dataSources := state.dataSources ++ [dataSource] }

/-- Action `removeDataSource`: filters out entries whose `id` matches and clears
the selection when the selected source carries that `id`
(`state.selectedDataSource?.id === id ? null : state.selectedDataSource`). -/
def removeDataSource (id : String) (state : DataSourceState) : DataSourceState :=
  { state with
    dataSources := state.dataSources.filter (fun ds => ds.id != id),
    selectedDataSource :=
      match state.selectedDataSource with
      | some sel => if sel.id = id then none else some sel
      | none => none }

/-- Action `selectDataSource`: looks the id up in the list (`|| null`). -/
def selectDataSource (id : Option String) (state : DataSourceState) : DataSourceState :=
  { state with
    selectedDataSource :=
      match id with
      | some i => state.dataSources.find? (fun ds => ds.id == i)
      | none => none }

/-! ### SQL Explorer page (`app/(dashboard)/explorer/page.tsx`)

`handleExecuteQuery` becomes a pure function of the page state, the
client-measured elapsed time (`Date.now() - startTime`, passed as a
parameter since wall-clock time is external), and the backend's response;
it returns the new state, the network request it issued (if any) and the
notifications it raised. -/

/-- One entry of the explorer's `columns` state
(`Array<{ name: string; type: string }>`). -/
structure ExplorerColumn where
  name : String
  type : String
  deriving Repr, DecidableEq

/-- The explorer page's state hooks. -/
structure ExplorerState where
  selectedDataSource : String
  selectedTable : String
  query : String
  isExecuting : Bool
  columns : List ExplorerColumn
  results : Option (List (List Js))
  executionTime : Option Int

/-- The query request `POST /datasources/{id}/query` with
body `{ query: query.trim() }`. -/
structure QueryRequest where
  dataSourceId : String
  query : String
  deriving Repr, DecidableEq

/-- Outcome of a backend round trip for the query call: a success body, a
non-ok response body, or a transport failure (`fetch`/`json()` threw; the
payload is the thrown `Error`'s message, `none` for a non-`Error` throw). -/
inductive QueryHttpResponse where
  | ok (columns : Option (List ExplorerColumn)) (rows : Option (List (List Js)))
  | httpError (body : Js)
  | networkFailure (message : Option String)

/-- Result of running the handler: new state, issued request, toasts. -/
structure ExecOutcome where
  state : ExplorerState
  request : Option QueryRequest
  notifications : List Notification

/-- Error-message extraction for a non-ok query response
(`typeof error.detail === 'string' ? error.detail :
(error.detail?.message || error.message || JSON.stringify(error.detail) ||
"Query execution failed")`); the selected value reaches the toast through
`new Error(...)`, i.e. `String(...)`-coerced. -/
def extractErrorMessage (body : Js) : String :=
  match body.get "detail" with
  | some (.str s) => s
  | d =>
      let chain :=
        jsOr (jsOr (jsGetChain d "message") (body.get "message"))
          (d.map fun j => Js.str j.stringify)
      (jsOrD chain (Js.str "Query execution failed")).display

/-- Handler `handleExecuteQuery`: rejects an empty (after `trim`) query or a missing
data-source selection before any request; on success overwrites
`columns`/`results`/`executionTime`; on failure raises an error toast and
touches none of them; `isExecuting` is reset in the `finally` block. -/
def handleExecuteQuery (s : ExplorerState) (elapsed : Int)
    (resp : QueryHttpResponse) : ExecOutcome :=
  if jsTrim s.query = "" ∨ s.selectedDataSource = "" then
    { state := s, request := none, notifications := [] }
  else
    let req : QueryRequest :=
      { dataSourceId := s.selectedDataSource, query := jsTrim s.query }
    match resp with
    | .ok cols rows =>
        { state := { s with
            columns := cols.getD [],
            results := some (rows.getD []),
            executionTime := some elapsed,
            isExecuting := false },
          request := some req,
          notifications := [.success
            ("Query executed successfully (" ++ toString (rows.getD []).length ++ " rows)")] }
    | .httpError body =>
        { state := { s with isExecuting := false },
          request := some req,
          notifications := [.error (extractErrorMessage body)] }
    | .networkFailure msg =>
        { state := { s with isExecuting := false },
          request := some req,
          notifications := [.error (msg.getD "Failed to execute query")] }

/-- A rendered result cell: the italicised `NULL` marker is a distinct
constructor, so a `NULL` cell is distinguishable from an empty text cell. -/
inductive Cell where
  | nullCell
  | textCell (s : String)
  deriving Repr, DecidableEq

/-- Embedding of `Number.prototype.toLocaleString()` under the default grouping locale:
thousands separated by commas (helper working on reversed digit lists). -/
def groupRev : List Char → List Char
  | a :: b :: c :: d :: rest => a :: b :: c :: ',' :: groupRev (d :: rest)
  | l => l

/-- Locale-grouped rendering of an integer. -/
def toLocaleString (n : Int) : String :=
  (if n < 0 then "-" else "")
    ++ String.mk (groupRev (toString n.natAbs).data.reverse).reverse

/-- Rendering of one result cell (`value === null ? NULL marker :
typeof value === "number" ? value.toLocaleString() : String(value)`). -/
def renderCell : Js → Cell
  | .null => .nullCell
  | .num n => .textCell (toLocaleString n)
  | v => .textCell v.display

/-- The rendered results table: header strictly from `columns`, body rows
in order. -/
structure RenderedTable where
  header : List String
  body : List (List Cell)
  deriving Repr, DecidableEq

/-- The explorer's results rendering: `columns.map(col => col.name)` for the
header and, for each row of `results`, `row.map((value, i) => ...)` for the
cells — each row is iterated positionally. -/
def renderResults (columns : List ExplorerColumn) (results : List (List Js)) :
    RenderedTable :=
  { header := columns.map (·.name),
    body := results.map (fun row => row.map renderCell) }

/-! ### Data Sources page (`DataSourcesPage`)

The connection dialog: the `dataSourceTypes` catalogue, the controlled
`ConnectionForm` state, the type-dependent field presentation of the dialog
JSX, `handleTypeSelect`, and `handleConnect` (which builds the
type-dependent `config` payload).  The page's fetched data-source list and
search box are not involved in any claim and are outside this model's
state. -/

/-- One entry of the `dataSourceTypes` catalogue. -/
structure DataSourceTypeInfo where
  id : String
  label : String
  icon : String
  defaultPort : String
  deriving Repr, DecidableEq

/-- The `dataSourceTypes` constant of the page. -/
def dataSourceTypes : List DataSourceTypeInfo :=
  [ ⟨"postgresql", "PostgreSQL", "🐘", "5432"⟩,
    ⟨"mysql", "MySQL", "🐬", "3306"⟩,
    ⟨"mongodb", "MongoDB", "🍃", "27017"⟩,
    ⟨"sqlite", "SQLite", "📦", ""⟩,
    ⟨"snowflake", "Snowflake", "❄️", ""⟩,
    ⟨"bigquery", "BigQuery", "📊", ""⟩,
    ⟨"redshift", "Redshift", "🔴", "5439"⟩,
    ⟨"csv", "CSV File", "📄", ""⟩,
    ⟨"rest_api", "REST API", "🔗", ""⟩ ]

/-- Embedding of `interface ConnectionForm` — the controlled form state. -/
structure ConnectionForm where
  name : String
  host : String
  port : String
  database : String
  username : String
  password : String
  url : String
  apiKey : String
  deriving Repr, DecidableEq

/-- The form's initial value (also restored by `resetForm`). -/
def initialConnectionForm : ConnectionForm :=
  { name := "", host := "localhost", port := "", database := "",
    username := "", password := "", url := "", apiKey := "" }

/-- Dialog state of the page.  `selectedFile` models the *uncontrolled*
`<Input id="file" type="file" />` DOM input of the `csv` branch: the chosen
file lives only in the DOM and no handler reads it. -/
structure DataSourcesPageState where
  isDialogOpen : Bool
  selectedType : String
  isConnecting : Bool
  formData : ConnectionForm
  selectedFile : Option String
  deriving Repr, DecidableEq

/-- An input field of the connection dialog; `fileUpload` is the
file-path/upload input shown only for `csv`. -/
inductive FormField where
  | name | host | port | database | username | password
  | url | apiKey | fileUpload
  deriving Repr, DecidableEq

/-- The fields the dialog JSX presents for a selected type: nothing until a
type is selected; always the connection `name`; host/port/database/username/
password iff the type is neither `csv` nor `rest_api`; url/apiKey iff
`rest_api`; the file upload iff `csv`. -/
def connectionFormFields (selectedType : String) : List FormField :=
  if selectedType = "" then []
  else
    [.name]
    ++ (if selectedType ≠ "csv" ∧ selectedType ≠ "rest_api" then
          [.host, .port, .database, .username, .password]
        else [])
    ++ (if selectedType = "rest_api" then [.url, .apiKey] else [])
    ++ (if selectedType = "csv" then [.fileUpload] else [])

/-- Handler `handleTypeSelect`: records the selected type, then (when the type is in
the catalogue) overwrites only the form's `port` with the catalogue's
`defaultPort`, via `setFormData(prev => ({ ...prev, port: ... }))`. -/
def handleTypeSelect (typeId : String) (s : DataSourcesPageState) :
    DataSourcesPageState :=
  let s1 := { s with selectedType := typeId }
  match dataSourceTypes.find? (fun t => t.id == typeId) with
  | some info => { s1 with formData := { s1.formData with port := info.defaultPort } }
  | none => s1

/-- Builder for `handleConnect`'s type-dependent `connectionConfig`; the serialised JSON
object drops the `port` key when `parseInt(formData.port) || undefined` is
`undefined` (unparsable or zero). -/
def buildConnectionConfig (selectedType : String) (f : ConnectionForm) :
    List (String × Js) :=
  if selectedType = "rest_api" then
    [("url", .str f.url), ("api_key", .str f.apiKey)]
  else if selectedType = "csv" then
    [("file_path", .str f.name)]
  else
    [("host", .str f.host)]
    ++ (match jsParseInt f.port with
        | some n => if n = 0 then [] else [("port", .num n)]
        | none => [])
    ++ [("database", .str f.database), ("username", .str f.username),
        ("password", .str f.password)]

/-- The creation request `POST /datasources` with body
`{ name, type, config }`. -/
structure CreateDataSourceRequest where
  name : String
  type : String
  config : List (String × Js)

/-- Backend outcome for the creation call. -/
inductive CreateHttpResponse where
  | ok
  | httpError (body : Js)
  | networkFailure (message : Option String)

/-- Outcome of `handleConnect` on the Data Sources page. -/
structure ConnectOutcome where
  state : DataSourcesPageState
  request : Option CreateDataSourceRequest
  notifications : List Notification

/-- Handler `handleConnect`: rejects a missing connection name before any request;
otherwise posts `{name, type, config}`; on success closes the dialog and
resets the form (the page also re-fetches its list); on failure raises an
error toast built from `error.detail || "Failed to connect to data
source"`. -/
def dsHandleConnect (s : DataSourcesPageState) (resp : CreateHttpResponse) :
    ConnectOutcome :=
  if s.formData.name = "" then
    { state := s, request := none,
      notifications := [.error "Please enter a connection name"] }
  else
    let req : CreateDataSourceRequest :=
      { name := s.formData.name, type := s.selectedType,
        config := buildConnectionConfig s.selectedType s.formData }
    match resp with
    | .ok =>
        let st := { s with isConnecting := false, isDialogOpen := false,
                           selectedType := "", formData := initialConnectionForm }
        { state := st,
          request := some req,
          notifications := [.success "Data source connected successfully!"] }
    | .httpError body =>
        { state := { s with isConnecting := false },
          request := some req,
          notifications := [.error
            ((jsOrD (body.get "detail")
              (.str "Failed to connect to data source")).display)] }
    | .networkFailure msg =>
        { state := { s with isConnecting := false },
          request := some req,
          notifications := [.error (msg.getD "Failed to connect to data source")] }

/-! ### Insights page (`app/(dashboard)/insights/page.tsx`)

The metric rendering of an insight card, the API-response transform, the
`handleGenerateInsights` handler, and which controls the page JSX renders.
`new Date(...).toLocaleString()` is locale/timezone dependent and is
abstracted as a formatting parameter applied to the raw timestamp text. -/

/-- One metric of the page's `Insight` interface:
`{ label?: string; name?: string; value: any; change?: any; unit?: string }`. -/
structure Metric where
  label : Option String := none
  name : Option String := none
  value : Js
  change : Option Js := none
  unit : Option String := none

/-- JavaScript `a || b` on optional strings (the empty string is falsy). -/
def jsOrStrOpt (a b : Option String) : Option String :=
  match a with
  | some s => if s = "" then b else some s
  | none => b

/-- Text produced by a JSX expression child `{v}`: strings as-is, numbers
via decimal display, `null`/booleans render nothing, array children are
concatenated (objects are not renderable and do not occur in the modelled
payloads). -/
def jsxText : Js → String
  | .null => ""
  | .bool _ => ""
  | .num n => toString n
  | .str s => s
  | .arr elems => String.join (elems.map fun e =>
      match e with
      | .null => "" | .bool _ => "" | .num n => toString n | .str s => s
      | _ => "")
  | .obj _ => ""

/-- Embedding of JavaScript `Number(v)` coercion; `none` models `NaN`.
Strings are trimmed, `""` coerces to `0`, signed decimal integers parse,
anything else is `NaN` (fractional/exponent forms do not occur in the
modelled payloads); composite values are approximated as `NaN`. -/
def jsNumber : Js → Option Int
  | .num n => some n
  | .bool b => some (if b then 1 else 0)
  | .null => some 0
  | .str s =>
      let t := jsTrim s
      if t = "" then some 0
      else
        let (neg, digits) :=
          match t.data with
          | '-' :: rest => (true, rest)
          | '+' :: rest => (false, rest)
          | rest => (false, rest)
        if digits ≠ [] ∧ digits.all Char.isDigit then
          let mag : Nat := digits.foldl (fun acc c => acc * 10 + (c.toNat - '0'.toNat)) 0
          some (if neg then -(mag : Int) else (mag : Int))
        else none
  | .arr _ => none
  | .obj _ => none

/-- Embedding of `String.prototype.startsWith("+")`: does the first character equal
`+`? -/
def startsWithPlus (s : String) : Bool :=
  match s.data with
  | '+' :: _ => true
  | _ => false

/-- Badge colour variant of the change badge. -/
inductive BadgeVariant where
  | success | destructive
  deriving Repr, DecidableEq

/-- The displayed parts of one rendered metric: the label text (absent when
both `label` and `name` are missing), the value text, and the optional
change badge (text with the appended unit, plus its colour variant). -/
structure RenderedMetric where
  label : Option String
  value : String
  change : Option (String × BadgeVariant)
  deriving Repr, DecidableEq

/-- The metric rendering of the insights grid: label from
`metric.label || metric.name`; the badge appears iff `change` is neither
`undefined` nor `null`; its variant is `success` iff
`String(change).startsWith("+") || Number(change) > 0`; its text is the
number prefixed with `+` when positive (strings shown as-is), followed by
`metric.unit || ""`. -/
def renderMetric (m : Metric) : RenderedMetric :=
  { label := jsOrStrOpt m.label m.name,
    value := jsxText m.value,
    change :=
      match m.change with
      | none => none
      | some .null => none
      | some c =>
          let changeText :=
            match c with
            | .num n => if n > 0 then "+" ++ toString n else toString n
            | v => jsxText v
          let variant :=
            if startsWithPlus c.display then BadgeVariant.success
            else match jsNumber c with
              | some n => if n > 0 then BadgeVariant.success else BadgeVariant.destructive
              | none => BadgeVariant.destructive
          some (changeText ++ (m.unit.getD ""), variant) }

/-- One element of the page's fetched `dataSources` list. -/
structure DataSourceItem where
  id : String
  name : String
  type : String
  deriving Repr, DecidableEq

/-- The page's `Insight` interface as populated by the transform in
`handleGenerateInsights`; fields read straight off the payload stay
optional, defaulted fields are always present. -/
structure InsightUI where
  id : Option Js
  title : Option Js
  description : Option Js
  type : Js
  severity : Js
  dataSource : Js
  confidence : Js
  createdAt : Js
  visualization : Js
  metrics : Js

/-- The per-item transform of the generate response
(`data.map((item: any) => ({...}))`). -/
def transformInsight (dataSources : List DataSourceItem)
    (fmtDate : String → String) (item : Js) : InsightUI :=
  { id := item.get "id",
    title := item.get "title",
    description := item.get "description",
    type := jsOrD (jsOr (item.get "insight_type") (item.get "type")) (.str "trend"),
    severity := jsOrD (item.get "severity") (.str "info"),
    dataSource := jsOrD
      ((dataSources.find? (fun ds => jsStrictEqStr (item.get "data_source_id") ds.id)).map
        (fun ds => Js.str ds.name))
      (.str "Unknown"),
    confidence := jsOrD (item.get "confidence") (.num 85),
    createdAt :=
      if jsTruthy (item.get "created_at") then
        .str (fmtDate ((item.get "created_at").getD .null).display)
      else .str "Just now",
    visualization := jsOrD (item.get "visualization") (.str "bar"),
    metrics := jsOrD (item.get "metrics") (.arr []) }

/-- The Insights page's state hooks. -/
structure InsightsPageState where
  selectedType : String
  isGenerating : Bool
  insights : List InsightUI
  dataSources : List DataSourceItem
  selectedDataSource : String
  isLoading : Bool

/-- Derived `filteredInsights`: all insights for the `all` filter, otherwise those
with `insight.type === selectedType`. -/
def filteredInsights (s : InsightsPageState) : List InsightUI :=
  if s.selectedType = "all" then s.insights
  else s.insights.filter (fun i => jsStrictEqStr (some i.type) s.selectedType)

/-- The generation request `POST /insights/generate` with body
`{ data_source_id, max_insights }` (`dataSources[0]?.id` can be absent). -/
structure GenerateRequest where
  data_source_id : Option String
  max_insights : Nat
  deriving Repr, DecidableEq

/-- Backend outcome for the generation call; a non-ok body is the parsed
JSON, with `{}` substituted when parsing failed
(`res.json().catch(() => ({}))`). -/
inductive GenerateHttpResponse where
  | ok (items : List Js)
  | httpError (body : Js)
  | networkFailure

/-- Outcome of `handleGenerateInsights`. -/
structure GenerateOutcome where
  state : InsightsPageState
  request : Option GenerateRequest
  notifications : List Notification

/-- Handler `handleGenerateInsights`: with no data sources, raises an error toast
and returns before any request; otherwise posts to the generate endpoint
(targeting the first source when the filter is `all`), replaces `insights`
with the transformed response on success, and raises
`error.detail || "Failed to generate insights"` on a non-ok response. -/
def handleGenerateInsights (s : InsightsPageState) (fmtDate : String → String)
    (resp : GenerateHttpResponse) : GenerateOutcome :=
  if s.dataSources.length = 0 then
    { state := s, request := none,
      notifications := [.error "Please connect a data source first"] }
  else
    let target : Option String :=
      if s.selectedDataSource = "all" then s.dataSources.head?.map (·.id)
      else some s.selectedDataSource
    let req : GenerateRequest := { data_source_id := target, max_insights := 5 }
    match resp with
    | .ok items =>
        let transformed := items.map (transformInsight s.dataSources fmtDate)
        { state := { s with insights := transformed, isGenerating := false },
          request := some req,
          notifications := [.success
            ("Generated " ++ toString transformed.length ++ " insights!")] }
    | .httpError body =>
        { state := { s with isGenerating := false },
          request := some req,
          notifications := [.error
            ((jsOrD (body.get "detail") (.str "Failed to generate insights")).display)] }
    | .networkFailure =>
        { state := { s with isGenerating := false },
          request := some req,
          notifications := [.error "Failed to connect to API"] }

/-- A user-visible control rendered by the Insights page JSX; insight cards
are identified by their position in the filtered list. -/
inductive InsightsControl where
  | exportButton
  | headerGenerateButton
  | connectDataSourceCta
  | emptyStateGenerateButton
  | insightCard (idx : Nat)
  deriving Repr, DecidableEq

/-- The controls the page renders: the header always carries the Export and
Generate Insights buttons; below, the loading state renders none, the empty
state renders the connect call-to-action when no data source exists and an
in-card Generate button otherwise, and a non-empty filtered list renders
one card per insight. -/
def insightsPageControls (s : InsightsPageState) : List InsightsControl :=
  [.exportButton, .headerGenerateButton]
  ++ (if s.isLoading then []
      else if (filteredInsights s).length = 0 then
        (if s.dataSources.length = 0 then [.connectDataSourceCta]
         else [.emptyStateGenerateButton])
      else (List.range (filteredInsights s).length).map .insightCard)

/-! ### Integrations page (`IntegrationsPage`) and integration API client
(`lib/api.ts`) -/

/-- The Integrations page's state hooks (the dialog inputs are uncontrolled
DOM inputs: no handler reads them, so they are not part of the state the
handlers can observe). -/
structure IntegrationsPageState where
  isSlackDialogOpen : Bool
  isTeamsDialogOpen : Bool
  isConnecting : Bool
  deriving Repr, DecidableEq

/-- A generic client API request (method, path, serialised JSON body with
`undefined` fields dropped). -/
structure ApiRequest where
  method : String
  path : String
  body : List (String × Js)

/-- Outcome of the Integrations page's `handleConnect`. -/
structure IntegrationsOutcome where
  state : IntegrationsPageState
  request : Option ApiRequest
  notifications : List Notification

/-- Handler `IntegrationsPage.handleConnect`: waits two seconds, clears the
in-flight flag, closes the matching dialog, and raises a success toast —
it takes only the integration type, reads no secret, and issues no
request. -/
def integrationsHandleConnect (ty : String) (s : IntegrationsPageState) :
    IntegrationsOutcome :=
  { state := { s with
      isConnecting := false,
      isSlackDialogOpen := if ty = "slack" then false else s.isSlackDialogOpen,
      isTeamsDialogOpen := if ty = "slack" then s.isTeamsDialogOpen else false },
    request := none,
    notifications := [.success
      ((if ty = "slack" then "Slack" else "Teams")
        ++ " integration connected successfully!")] }

/-- Payload of `integrationApi.setupSlack`. -/
structure SlackSetupPayload where
  botToken : String
  channelId : Option String := none

/-- Payload of `integrationApi.setupTeams`. -/
structure TeamsSetupPayload where
  webhookUrl : String
  teamId : Option String := none

/-- Client function `integrationApi.setupSlack`: `POST /integrations/slack` carrying the
bot token (and the channel id when given). -/
def setupSlackRequest (p : SlackSetupPayload) : ApiRequest :=
  { method := "POST", path := "/integrations/slack",
    body := [("botToken", .str p.botToken)]
      ++ (match p.channelId with
          | some c => [("channelId", Js.str c)]
          | none => []) }

/-- Client function `integrationApi.setupTeams`: `POST /integrations/teams` carrying the
webhook URL (and the team id when given). -/
def setupTeamsRequest (p : TeamsSetupPayload) : ApiRequest :=
  { method := "POST", path := "/integrations/teams",
    body := [("webhookUrl", .str p.webhookUrl)]
      ++ (match p.teamId with
          | some t => [("teamId", Js.str t)]
          | none => []) }

/-! ## Claims -/

/-- A `QueryResult` value permitted by the declared type whose single keyed
row has fewer entries than `columns`. -/
def mismatchedQueryResult : QueryResult :=
  { columns := ["id", "email"],
    rows := [[("id", Js.num 1)]],
    rowCount := 1,
    executionTime := 0 }

/-- C1 (counterexample): the declared `QueryResult` type keeps `rows` as
keyed records (`Record<string, any>[]`), so "every row's length equals
`columns.length`" fails: a type-correct value exists whose row has 1 entry
against 2 columns. -/
theorem queryResult_rows_not_positional :
    ¬ (∀ q : QueryResult, ∀ row ∈ q.rows, row.length = q.columns.length) := by
  intro h
  have h1 : [("id", Js.num 1)] ∈ mismatchedQueryResult.rows := by
    simp [mismatchedQueryResult]
  have h2 := h mismatchedQueryResult [("id", Js.num 1)] h1
  simp [mismatchedQueryResult] at h2

/-- C1 (amended): the declared `QueryResult` type does not impose the
fixed-length positional invariant, but the explorer's result rendering is
positional: the header's j-th entry is the j-th column's name, each
rendered body row has exactly the length of the underlying row, and the
cell at position (i, j) is the rendering of the i-th row's j-th value. -/
theorem explorer_rendering_positional (cols : List ExplorerColumn)
    (rows : List (List Js)) (i j : Nat) :
    (renderResults cols rows).header[j]? = cols[j]?.map ExplorerColumn.name ∧
    ((renderResults cols rows).body[i]?).map List.length = (rows[i]?).map List.length ∧
    ((renderResults cols rows).body[i]?.bind fun r => r[j]?)
      = (rows[i]?.bind fun r => r[j]?.map renderCell) := by
  refine ⟨?_, ?_, ?_⟩
  · simp [renderResults, List.getElem?_map]
  · cases h : rows[i]? <;> simp [renderResults, List.getElem?_map, h]
  · cases h : rows[i]? <;> simp [renderResults, List.getElem?_map, h]

/-- C2: for every catalogued data-source type, the connection dialog
presents the host/port/database/username/password fields exactly when the
type is neither `csv` nor `rest_api`, and those other types present neither
the url/apiKey fields nor the file upload. -/
theorem connection_form_fields_by_type :
    ∀ info ∈ dataSourceTypes,
      ((info.id = "csv" ∨ info.id = "rest_api") →
        FormField.host ∉ connectionFormFields info.id ∧
        FormField.port ∉ connectionFormFields info.id ∧
        FormField.database ∉ connectionFormFields info.id ∧
        FormField.username ∉ connectionFormFields info.id ∧
        FormField.password ∉ connectionFormFields info.id) ∧
      (¬(info.id = "csv" ∨ info.id = "rest_api") →
        FormField.host ∈ connectionFormFields info.id ∧
        FormField.port ∈ connectionFormFields info.id ∧
        FormField.database ∈ connectionFormFields info.id ∧
        FormField.username ∈ connectionFormFields info.id ∧
        FormField.password ∈ connectionFormFields info.id ∧
        FormField.url ∉ connectionFormFields info.id ∧
        FormField.apiKey ∉ connectionFormFields info.id ∧
        FormField.fileUpload ∉ connectionFormFields info.id) := by
  intro info hinfo
  fin_cases hinfo <;> exact ⟨by decide, by decide⟩

/-- C2 witness: instantiated at the catalogued `csv` and `postgresql`
entries. -/
theorem connection_form_fields_by_type_witness :
    FormField.host ∉ connectionFormFields "csv" ∧
    FormField.host ∈ connectionFormFields "postgresql" ∧
    FormField.fileUpload ∉ connectionFormFields "postgresql" :=
  ⟨(connection_form_fields_by_type ⟨"csv", "CSV File", "📄", ""⟩ (by decide)).1
      (Or.inl rfl) |>.1,
   ((connection_form_fields_by_type ⟨"postgresql", "PostgreSQL", "🐘", "5432"⟩
      (by decide)).2 (by decide)).1,
   ((connection_form_fields_by_type ⟨"postgresql", "PostgreSQL", "🐘", "5432"⟩
      (by decide)).2 (by decide)).2.2.2.2.2.2.2⟩

/-- C3: on a non-success query response the handler raises exactly one
error notification with the defensively extracted message, and leaves the
previously rendered `columns`, `results` and `executionTime` untouched; the
extraction accepts both a plain-string `detail` and a nested
`detail.message` (any non-empty message text). -/
theorem query_failure_preserves_results (s : ExplorerState) (elapsed : Int)
    (body : Js) (m : String)
    (hg : ¬(jsTrim s.query = "" ∨ s.selectedDataSource = ""))
    (hm : m ≠ "") :
    (handleExecuteQuery s elapsed (.httpError body)).state.columns = s.columns ∧
    (handleExecuteQuery s elapsed (.httpError body)).state.results = s.results ∧
    (handleExecuteQuery s elapsed (.httpError body)).state.executionTime
      = s.executionTime ∧
    (handleExecuteQuery s elapsed (.httpError body)).notifications
      = [Notification.error (extractErrorMessage body)] ∧
    extractErrorMessage (.obj [("detail", .str m)]) = m ∧
    extractErrorMessage (.obj [("detail", .obj [("message", .str m)])]) = m := by
  refine ⟨?_, ?_, ?_, ?_, ?_, ?_⟩
  · simp [handleExecuteQuery, hg]
  · simp [handleExecuteQuery, hg]
  · simp [handleExecuteQuery, hg]
  · simp [handleExecuteQuery, hg]
  · simp [extractErrorMessage, Js.get]
  · simp [extractErrorMessage, Js.get, jsGetChain, jsOr, jsOrD, jsTruthy,
      Js.truthy, Js.display, hm]

/-- Concrete explorer state for the C3 witness: a query and selection are
present and earlier results are on screen. -/
def c3State : ExplorerState :=
  { selectedDataSource := "ds-1", selectedTable := "users",
    query := "SELECT 1", isExecuting := false,
    columns := [⟨"a", "int"⟩], results := some [[Js.num 1]],
    executionTime := some 5 }

/-- C3 witness: instantiated at `c3State` and the plain-string error body
`{"detail": "boom"}`. -/
theorem query_failure_preserves_results_witness :
    ¬(jsTrim "SELECT 1" = "" ∨ ("ds-1" : String) = "") ∧ ("boom" : String) ≠ "" ∧
    ((handleExecuteQuery c3State 12 (.httpError (.obj [("detail", .str "boom")]))).state.columns
        = c3State.columns ∧
      (handleExecuteQuery c3State 12 (.httpError (.obj [("detail", .str "boom")]))).state.results
        = c3State.results ∧
      (handleExecuteQuery c3State 12 (.httpError (.obj [("detail", .str "boom")]))).state.executionTime
        = c3State.executionTime ∧
      (handleExecuteQuery c3State 12 (.httpError (.obj [("detail", .str "boom")]))).notifications
        = [Notification.error (extractErrorMessage (.obj [("detail", .str "boom")]))] ∧
      extractErrorMessage (.obj [("detail", .str "boom")]) = "boom" ∧
      extractErrorMessage (.obj [("detail", .obj [("message", .str "boom")])]) = "boom") :=
  ⟨by decide, by decide,
    query_failure_preserves_results c3State 12 (.obj [("detail", .str "boom")])
      "boom" (by decide) (by decide)⟩

/-- C4: an empty (or whitespace-only) query or a missing data-source
selection makes the handler return before any request: no network call, no
notification, and the page state is exactly unchanged. -/
theorem empty_query_rejected_locally (s : ExplorerState) (elapsed : Int)
    (resp : QueryHttpResponse)
    (h : jsTrim s.query = "" ∨ s.selectedDataSource = "") :
    handleExecuteQuery s elapsed resp
      = { state := s, request := none, notifications := [] } := by
  simp [handleExecuteQuery, h]

/-- Concrete explorer state for the C4 witness: a whitespace-only query
with a data source selected and prior results on screen. -/
def c4State : ExplorerState :=
  { selectedDataSource := "ds-1", selectedTable := "",
    query := "   ", isExecuting := false,
    columns := [⟨"a", "int"⟩], results := some [[Js.null]],
    executionTime := some 3 }

/-- C4 witness: instantiated at the whitespace-only query state. -/
theorem empty_query_rejected_locally_witness :
    (jsTrim "   " = "" ∨ c4State.selectedDataSource = "") ∧
    handleExecuteQuery c4State 7 (.networkFailure none)
      = { state := c4State, request := none, notifications := [] } :=
  ⟨by decide,
    empty_query_rejected_locally c4State 7 (.networkFailure none) (by decide)⟩

/-- C5: `removeDataSource id` keeps exactly the entries whose id differs
from `id`; afterwards no selected source carries the removed id — a
matching selection is cleared and a non-matching selection survives
unchanged. -/
theorem remove_data_source_spec (s : DataSourceState) (id : String) :
    (∀ ds, ds ∈ (removeDataSource id s).dataSources
        ↔ (ds ∈ s.dataSources ∧ ds.id ≠ id)) ∧
    (∀ sel, (removeDataSource id s).selectedDataSource = some sel → sel.id ≠ id) ∧
    (∀ sel, s.selectedDataSource = some sel → sel.id = id →
        (removeDataSource id s).selectedDataSource = none) ∧
    (∀ sel, s.selectedDataSource = some sel → sel.id ≠ id →
        (removeDataSource id s).selectedDataSource = some sel) := by
  refine ⟨?_, ?_, ?_, ?_⟩
  · intro ds
    simp [removeDataSource, List.mem_filter]
  · intro sel h
    unfold removeDataSource at h
    cases hs : s.selectedDataSource with
    | none => simp [hs] at h
    | some cur =>
        simp only [hs] at h
        by_cases hid : cur.id = id
        · simp [hid] at h
        · simp [hid] at h
          simpa [← h] using hid
  · intro sel hsel hid
    simp [removeDataSource, hsel, hid]
  · intro sel hsel hid
    simp [removeDataSource, hsel, hid]

/-- First data source of the C5 witness store (the selected one). -/
def c5SourceA : DataSource :=
  { id := "a", name := "A", type := .postgresql, config := {},
    status := .connected, createdAt := 0, updatedAt := 0 }

/-- Second data source of the C5 witness store. -/
def c5SourceB : DataSource :=
  { id := "b", name := "B", type := .csv, config := {},
    status := .disconnected, createdAt := 0, updatedAt := 0 }

/-- C5 witness store: two sources, the first selected. -/
def c5Store : DataSourceState :=
  { dataSources := [c5SourceA, c5SourceB],
    selectedDataSource := some c5SourceA,
    isConnecting := false, error := none }

/-- C5 witness: deleting the selected source `"a"` clears the selection
while the other source stays in the list. -/
theorem remove_data_source_spec_witness :
    (removeDataSource "a" c5Store).selectedDataSource = none ∧
    c5SourceB ∈ (removeDataSource "a" c5Store).dataSources :=
  ⟨(remove_data_source_spec c5Store "a").2.2.1 c5SourceA rfl rfl,
   ((remove_data_source_spec c5Store "a").1 c5SourceB).mpr
     ⟨by simp [c5Store], by decide⟩⟩

/-- The first C6 payload: `{label: "Growth", value: 15, change: 3}`. -/
def metricWithLabel : Metric :=
  { label := some "Growth", value := .num 15, change := some (.num 3) }

/-- The second C6 payload: `{name: "Growth", value: 15, change: "+3"}`. -/
def metricWithName : Metric :=
  { name := some "Growth", value := .num 15, change := some (.str "+3") }

/-- C6: the metric rendering reads the label from either `label` or `name`,
accepts `change` as number or string (prefixing positive numbers with `+`),
and appends an optional `unit` — the two payloads of the claim render to
the same label/value/change, and a unit is appended to the badge text. -/
theorem metric_rendering_tolerates_aliases :
    renderMetric metricWithLabel = renderMetric metricWithName ∧
    renderMetric metricWithLabel
      = { label := some "Growth", value := "15",
          change := some ("+3", BadgeVariant.success) } ∧
    renderMetric { metricWithLabel with unit := some "%" }
      = { label := some "Growth", value := "15",
          change := some ("+3%", BadgeVariant.success) } := by
  refine ⟨?_, ?_, ?_⟩ <;> decide

/-- The C7 page state: zero data sources, no insights, loading finished. -/
def insightsEmptyState : InsightsPageState :=
  { selectedType := "all", isGenerating := false, insights := [],
    dataSources := [], selectedDataSource := "all", isLoading := false }

/-- C7 (counterexample): with zero data sources the page *does* render the
connect call-to-action — but it still renders a generate-insights control:
the header's Generate Insights button is unconditional, so the claim's
"instead of the generate-insights control" fails. -/
theorem insights_header_generate_always_rendered :
    InsightsControl.connectDataSourceCta ∈ insightsPageControls insightsEmptyState ∧
    InsightsControl.headerGenerateButton ∈ insightsPageControls insightsEmptyState := by
  decide

/-- C7 (amended): with zero data sources, triggering generation issues no
network call, changes no state and raises only the error toast; and (once
loading is done and no insights are shown) the empty-state area renders the
connect call-to-action and not its generate control — while the header's
generate button remains rendered. -/
theorem no_generate_call_without_sources (s : InsightsPageState)
    (fmtDate : String → String) (resp : GenerateHttpResponse)
    (h : s.dataSources = []) :
    (handleGenerateInsights s fmtDate resp).request = none ∧
    (handleGenerateInsights s fmtDate resp).state = s ∧
    (handleGenerateInsights s fmtDate resp).notifications
      = [Notification.error "Please connect a data source first"] ∧
    (s.isLoading = false → filteredInsights s = [] →
      InsightsControl.connectDataSourceCta ∈ insightsPageControls s ∧
      InsightsControl.emptyStateGenerateButton ∉ insightsPageControls s ∧
      InsightsControl.headerGenerateButton ∈ insightsPageControls s) := by
  have hlen : s.dataSources.length = 0 := by simp [h]
  refine ⟨?_, ?_, ?_, ?_⟩
  · simp [handleGenerateInsights, hlen]
  · simp [handleGenerateInsights, hlen]
  · simp [handleGenerateInsights, hlen]
  · intro hload hfil
    refine ⟨?_, ?_, ?_⟩ <;>
      simp [insightsPageControls, hload, hfil, hlen]

/-- C7 witness: instantiated at the empty page state. -/
theorem no_generate_call_without_sources_witness :
    insightsEmptyState.dataSources = [] ∧
    (handleGenerateInsights insightsEmptyState id GenerateHttpResponse.networkFailure).request
      = none ∧
    InsightsControl.connectDataSourceCta ∈ insightsPageControls insightsEmptyState ∧
    InsightsControl.emptyStateGenerateButton ∉ insightsPageControls insightsEmptyState :=
  ⟨rfl,
   (no_generate_call_without_sources insightsEmptyState id .networkFailure rfl).1,
   ((no_generate_call_without_sources insightsEmptyState id .networkFailure rfl).2.2.2
      rfl rfl).1,
   ((no_generate_call_without_sources insightsEmptyState id .networkFailure rfl).2.2.2
      rfl rfl).2.1⟩

/-- C8: selecting a catalogued type records the type and overwrites only
the form's `port` with that type's default port; the entered name and every
other form field survive unchanged. -/
theorem type_select_sets_default_port (s : DataSourcesPageState)
    (typeId : String) (info : DataSourceTypeInfo)
    (h : dataSourceTypes.find? (fun t => t.id == typeId) = some info) :
    (handleTypeSelect typeId s).selectedType = typeId ∧
    (handleTypeSelect typeId s).formData.port = info.defaultPort ∧
    (handleTypeSelect typeId s).formData.name = s.formData.name ∧
    (handleTypeSelect typeId s).formData.host = s.formData.host ∧
    (handleTypeSelect typeId s).formData.database = s.formData.database ∧
    (handleTypeSelect typeId s).formData.username = s.formData.username ∧
    (handleTypeSelect typeId s).formData.password = s.formData.password ∧
    (handleTypeSelect typeId s).formData.url = s.formData.url ∧
    (handleTypeSelect typeId s).formData.apiKey = s.formData.apiKey := by
  simp [handleTypeSelect, h]

/-- Dialog state for the C8 witness: a name is already entered. -/
def c8State : DataSourcesPageState :=
  { isDialogOpen := true, selectedType := "", isConnecting := false,
    formData := { initialConnectionForm with name := "My DB" },
    selectedFile := none }

/-- C8 witness: selecting `postgresql` sets the port to `"5432"` and keeps
the entered name. -/
theorem type_select_sets_default_port_witness :
    dataSourceTypes.find? (fun t => t.id == "postgresql")
      = some ⟨"postgresql", "PostgreSQL", "🐘", "5432"⟩ ∧
    (handleTypeSelect "postgresql" c8State).formData.port = "5432" ∧
    (handleTypeSelect "postgresql" c8State).formData.name = "My DB" :=
  ⟨by decide,
   (type_select_sets_default_port c8State "postgresql"
      ⟨"postgresql", "PostgreSQL", "🐘", "5432"⟩ (by decide)).2.1,
   (type_select_sets_default_port c8State "postgresql"
      ⟨"postgresql", "PostgreSQL", "🐘", "5432"⟩ (by decide)).2.2.1⟩

/-- The Integrations page state for the C9 counterexample: the Slack
dialog is open, the connect button has just been pressed. -/
def slackDialogState : IntegrationsPageState :=
  { isSlackDialogOpen := true, isTeamsDialogOpen := false, isConnecting := true }

/-- C9 (counterexample): the page's connect action takes no secret at all,
issues no request, and still reports success and closes the dialog — so a
creation without the type-specific secret succeeds and nothing is submitted
to the backend. -/
theorem integrations_connect_succeeds_without_secret :
    (integrationsHandleConnect "slack" slackDialogState).request = none ∧
    (integrationsHandleConnect "slack" slackDialogState).notifications
      = [Notification.success "Slack integration connected successfully!"] ∧
    (integrationsHandleConnect "slack" slackDialogState).state.isSlackDialogOpen
      = false := by
  refine ⟨rfl, rfl, rfl⟩

/-- C9 (amended): the Integrations page's connect action never issues a
backend request and always reports success, for either integration type and
any dialog state (its inputs are uncontrolled and unread, so no secret can
reach the backend or be redisplayed); the API client's setup functions —
which the page never calls — do carry the type-specific secret in their
payloads. -/
theorem integrations_connect_is_mock :
    (∀ ty s, (integrationsHandleConnect ty s).request = none ∧
      (integrationsHandleConnect ty s).notifications
        = [Notification.success
            ((if ty = "slack" then "Slack" else "Teams")
              ++ " integration connected successfully!")]) ∧
    (∀ p : SlackSetupPayload,
      (setupSlackRequest p).path = "/integrations/slack" ∧
      ("botToken", Js.str p.botToken) ∈ (setupSlackRequest p).body) ∧
    (∀ p : TeamsSetupPayload,
      (setupTeamsRequest p).path = "/integrations/teams" ∧
      ("webhookUrl", Js.str p.webhookUrl) ∈ (setupTeamsRequest p).body) := by
  refine ⟨fun ty s => ⟨rfl, rfl⟩, fun p => ⟨rfl, ?_⟩, fun p => ⟨rfl, ?_⟩⟩
  · simp [setupSlackRequest]
  · simp [setupTeamsRequest]

/-- C10: with type `csv` and a non-empty connection name, the creation
request's config is exactly `{file_path: <connection name>}`, and the
request does not depend on the file chosen in the upload input. -/
theorem csv_config_uses_connection_name (s : DataSourcesPageState)
    (resp : CreateHttpResponse)
    (hty : s.selectedType = "csv") (hname : ¬(s.formData.name = "")) :
    (dsHandleConnect s resp).request
      = some { name := s.formData.name, type := "csv",
               config := [("file_path", Js.str s.formData.name)] } ∧
    (∀ file : Option String,
      (dsHandleConnect { s with selectedFile := file } resp).request
        = (dsHandleConnect s resp).request) := by
  constructor
  · cases resp <;>
      simp [dsHandleConnect, hname, buildConnectionConfig, hty]
  · intro file
    cases resp <;> simp [dsHandleConnect, hname]

/-- Dialog state for the C10 witness: type `csv`, connection name
`"data.csv"`, and some file chosen in the upload input. -/
def c10State : DataSourcesPageState :=
  { isDialogOpen := true, selectedType := "csv", isConnecting := false,
    formData := { initialConnectionForm with name := "data.csv" },
    selectedFile := some "upload-20240101.csv" }

/-- C10 witness: the request built from `c10State` carries
`{file_path: "data.csv"}` and ignores the chosen file. -/
theorem csv_config_uses_connection_name_witness :
    c10State.selectedType = "csv" ∧ ¬(c10State.formData.name = "") ∧
    (dsHandleConnect c10State CreateHttpResponse.ok).request
      = some { name := "data.csv", type := "csv",
               config := [("file_path", Js.str "data.csv")] } ∧
    (dsHandleConnect { c10State with selectedFile := none } CreateHttpResponse.ok).request
      = (dsHandleConnect c10State CreateHttpResponse.ok).request :=
  ⟨rfl, by decide,
   (csv_config_uses_connection_name c10State .ok rfl (by decide)).1,
   (csv_config_uses_connection_name c10State .ok rfl (by decide)).2 none⟩

end Tuple
